import Mathlib

/-!
Shallow embedding of the `c_vec` crate (files `src/c_vec.rs`, `src/c_slice.rs`).

Modelling conventions:
* Addresses are natural numbers counted in units of elements, so the Rust
  pointer operation `base.add(ofs)` becomes `base + ofs`; the address `0` is
  the null pointer.
* Foreign memory is a total map from addresses to element values.
* A Rust function that can panic is embedded as a function into
  `Except Unit _`, where `Except.error ()` is the panic outcome.
* The boxed release callback `Box<dyn FnOnce(*mut T)>` is embedded as an
  opaque value of a type `D`; invoking it with argument `p` is recorded as
  the event `(f, p) : D × Ptr`.  Dropping a `CVec` therefore returns the
  list of release calls it performs, as an `Option (D × Ptr)`.
* A Rust `&mut T` returned by `get_mut`, `get_unchecked_mut`, `index_mut`
  and the mutable iterators is embedded as the address of the element; a
  store through such a reference is `Mem.write`.
* Rust lifetimes and the borrow checker are not part of the embedding; the
  `PhantomData` fields of `CSlice` and `CSliceMut` carry no data and are
  omitted.
-/

/-- Element-unit addresses; `0` is the null pointer. -/
abbrev Ptr : Type := Nat

/-- Foreign memory: a total map from element addresses to element values. -/
abbrev Mem (T : Type) : Type := Ptr → T

/-- Store `x` at address `a` (a write through a mutable reference). -/
def Mem.write {T : Type} (m : Mem T) (a : Ptr) (x : T) : Mem T :=
  fun b => if b = a then x else m b

/-- `CSlice<'a, T>` from `src/c_slice.rs`: a non-owning read-only view,
`base` pointer plus element count `len` (the `PhantomData` lifetime marker
carries no data). -/
structure CSlice (T : Type) where
  base : Ptr
  len : Nat
deriving DecidableEq

/-- `CSliceMut<'a, T>` from `src/c_slice.rs`: a non-owning mutable view,
`base` pointer plus element count `len`. -/
structure CSliceMut (T : Type) where
  base : Ptr
  len : Nat
deriving DecidableEq

/-- `CVec<T>` from `src/c_vec.rs`: owning handle with `base` pointer,
element count `len` and optional boxed release callback `dtor` (an opaque
value of type `D`). -/
structure CVec (T : Type) (D : Type) where
  base : Ptr
  len : Nat
  dtor : Option D
deriving DecidableEq

/-- `CSlice::new` (`c_slice.rs:83`): asserts the pointer is non-null
(`Except.error ()` embeds the panic), then builds the view. -/
def CSlice.new {T : Type} (base : Ptr) (len : Nat) : Except Unit (CSlice T) :=
  if base = 0 then Except.error () else Except.ok ⟨base, len⟩

/-- `CSlice::get` (`c_slice.rs:105`): `Some` of the element at `base + ofs`
when `ofs < len`, otherwise `None`. -/
def CSlice.get {T : Type} (m : Mem T) (s : CSlice T) (ofs : Nat) : Option T :=
  if ofs < s.len then some (m (s.base + ofs)) else none

/-- `CSlice::get_unchecked` (`c_slice.rs:127`): dereference `base + ofs`
with no bounds check. -/
def CSlice.get_unchecked {T : Type} (m : Mem T) (s : CSlice T) (ofs : Nat) : T :=
  m (s.base + ofs)

/-- `CSlice::is_empty` (`c_slice.rs:159`). -/
def CSlice.is_empty {T : Type} (s : CSlice T) : Bool :=
  s.len == 0

/-- `impl Index for CSlice` (`c_slice.rs:192`): asserts `index < len`
(panic embedded as `Except.error ()`), then dereferences. -/
def CSlice.index {T : Type} (m : Mem T) (s : CSlice T) (i : Nat) : Except Unit T :=
  if i < s.len then Except.ok (m (s.base + i)) else Except.error ()

/-- `impl AsRef<[T]> for CSlice` (`c_slice.rs:185`): the `len` elements
starting at `base`, read out as a list. -/
def CSlice.as_ref {T : Type} (m : Mem T) (s : CSlice T) : List T :=
  (List.range s.len).map (fun i => m (s.base + i))

/-- `impl Into<Vec<T>> for CSlice` (`c_slice.rs:201`): copy `as_ref` into a
fresh owned vector (`extend_from_slice`). -/
def CSlice.into_vec {T : Type} (m : Mem T) (s : CSlice T) : List T :=
  CSlice.as_ref m s

/-- `CSlice` has no `Drop` implementation: dropping a view performs no
release call. -/
def CSlice.drop {T D : Type} (_s : CSlice T) : Option (D × Ptr) :=
  none

/-- `CSliceIter` (`c_slice.rs:28`): borrowed slice plus position counter. -/
structure CSliceIter (T : Type) where
  inner : CSlice T
  pos : Nat
deriving DecidableEq

/-- `impl Iterator for CSliceIter::next` (`c_slice.rs:36`): return `None`
once `pos >= len`, otherwise advance `pos` and yield the element at the old
position via `get_unchecked(pos - 1)`. -/
def CSliceIter.next {T : Type} (m : Mem T) (it : CSliceIter T) :
    Option T × CSliceIter T :=
  if it.pos ≥ it.inner.len then (none, it)
  else
    let it' : CSliceIter T := ⟨it.inner, it.pos + 1⟩
    (some (CSlice.get_unchecked m it.inner (it'.pos - 1)), it')

/-- `CSlice::iter` (`c_slice.rs:177`): a fresh iterator at position `0`. -/
def CSlice.iter {T : Type} (s : CSlice T) : CSliceIter T :=
  ⟨s, 0⟩

/-- Run `CSliceIter.next` up to `n` times, collecting the yielded elements
and stopping at the first `None`. -/
def CSliceIter.run {T : Type} (m : Mem T) : Nat → CSliceIter T → List T × CSliceIter T
  | 0, it => ([], it)
  | Nat.succ n, it =>
    match CSliceIter.next m it with
    | (none, it') => ([], it')
    | (some x, it') =>
      let r := CSliceIter.run m n it'
      (x :: r.1, r.2)

/-- `CSliceMut::new` (`c_slice.rs:310`): asserts the pointer is non-null. -/
def CSliceMut.new {T : Type} (base : Ptr) (len : Nat) : Except Unit (CSliceMut T) :=
  if base = 0 then Except.error () else Except.ok ⟨base, len⟩

/-- `CSliceMut::get` (`c_slice.rs:332`). -/
def CSliceMut.get {T : Type} (m : Mem T) (s : CSliceMut T) (ofs : Nat) : Option T :=
  if ofs < s.len then some (m (s.base + ofs)) else none

/-- `CSliceMut::get_unchecked` (`c_slice.rs:354`). -/
def CSliceMut.get_unchecked {T : Type} (m : Mem T) (s : CSliceMut T) (ofs : Nat) : T :=
  m (s.base + ofs)

/-- `CSliceMut::get_mut` (`c_slice.rs:374`): `Some` of the address of the
element (the mutable reference) when `ofs < len`, otherwise `None`. -/
def CSliceMut.get_mut {T : Type} (s : CSliceMut T) (ofs : Nat) : Option Ptr :=
  if ofs < s.len then some (s.base + ofs) else none

/-- `CSliceMut::get_unchecked_mut` (`c_slice.rs:395`): the address
`base + ofs`, unchecked. -/
def CSliceMut.get_unchecked_mut {T : Type} (s : CSliceMut T) (ofs : Nat) : Ptr :=
  s.base + ofs

/-- `CSliceMut::is_empty` (`c_slice.rs:427`). -/
def CSliceMut.is_empty {T : Type} (s : CSliceMut T) : Bool :=
  s.len == 0

/-- `impl Index for CSliceMut` (`c_slice.rs:489`): asserts `index < len`. -/
def CSliceMut.index {T : Type} (m : Mem T) (s : CSliceMut T) (i : Nat) : Except Unit T :=
  if i < s.len then Except.ok (m (s.base + i)) else Except.error ()

/-- `impl IndexMut for CSliceMut` (`c_slice.rs:498`): asserts `index < len`,
then returns the element's address (the mutable reference). -/
def CSliceMut.index_mut {T : Type} (s : CSliceMut T) (i : Nat) : Except Unit Ptr :=
  if i < s.len then Except.ok (s.base + i) else Except.error ()

/-- `impl AsRef<[T]> for CSliceMut` (`c_slice.rs:475`). -/
def CSliceMut.as_ref {T : Type} (m : Mem T) (s : CSliceMut T) : List T :=
  (List.range s.len).map (fun i => m (s.base + i))

/-- `impl Into<Vec<T>> for CSliceMut` (`c_slice.rs:505`): copy `as_ref`
into a fresh owned vector. -/
def CSliceMut.into_vec {T : Type} (m : Mem T) (s : CSliceMut T) : List T :=
  CSliceMut.as_ref m s

/-- `CSliceMut` has no `Drop` implementation: dropping a mutable view
performs no release call. -/
def CSliceMut.drop {T D : Type} (_s : CSliceMut T) : Option (D × Ptr) :=
  none

/-- `CSliceMutIter` (`c_slice.rs:223`): read-only iterator over a mutable
view. -/
structure CSliceMutIter (T : Type) where
  inner : CSliceMut T
  pos : Nat
deriving DecidableEq

/-- `impl Iterator for CSliceMutIter::next` (`c_slice.rs:231`). -/
def CSliceMutIter.next {T : Type} (m : Mem T) (it : CSliceMutIter T) :
    Option T × CSliceMutIter T :=
  if it.pos ≥ it.inner.len then (none, it)
  else
    let it' : CSliceMutIter T := ⟨it.inner, it.pos + 1⟩
    (some (CSliceMut.get_unchecked m it.inner (it'.pos - 1)), it')

/-- `CSliceMut::iter` (`c_slice.rs:445`). -/
def CSliceMut.iter {T : Type} (s : CSliceMut T) : CSliceMutIter T :=
  ⟨s, 0⟩

/-- `CSliceMutIterMut` (`c_slice.rs:255`): mutable iterator over a mutable
view; yields element addresses (mutable references). -/
structure CSliceMutIterMut (T : Type) where
  inner : CSliceMut T
  pos : Nat
deriving DecidableEq

/-- `impl Iterator for CSliceMutIterMut::next` (`c_slice.rs:263`): yields
the address `base + (pos - 1)` after advancing `pos`. -/
def CSliceMutIterMut.next {T : Type} (it : CSliceMutIterMut T) :
    Option Ptr × CSliceMutIterMut T :=
  if it.pos ≥ it.inner.len then (none, it)
  else
    let it' : CSliceMutIterMut T := ⟨it.inner, it.pos + 1⟩
    (some (it.inner.base + (it'.pos - 1)), it')

/-- `CSliceMut::iter_mut` (`c_slice.rs:467`). -/
def CSliceMut.iter_mut {T : Type} (s : CSliceMut T) : CSliceMutIterMut T :=
  ⟨s, 0⟩

/-- `impl Drop for CVec` (`c_vec.rs:97`): `dtor.take()` — if a callback is
stored, clear it and call it with `base`.  The first component records the
release call performed (callback value and argument), the second is the
handle after the drop ran. -/
def CVec.drop {T D : Type} (v : CVec T D) : Option (D × Ptr) × CVec T D :=
  match v.dtor with
  | some f => (some (f, v.base), ⟨v.base, v.len, none⟩)
  | none => (none, v)

/-- `CVec::new` (`c_vec.rs:125`): asserts the pointer is non-null, stores
no release callback. -/
def CVec.new {T D : Type} (base : Ptr) (len : Nat) : Except Unit (CVec T D) :=
  if base = 0 then Except.error () else Except.ok ⟨base, len, none⟩

/-- `CVec::new_with_dtor` (`c_vec.rs:156`): asserts the pointer is
non-null, boxes and stores the release callback. -/
def CVec.new_with_dtor {T D : Type} (base : Ptr) (len : Nat) (dtor : D) :
    Except Unit (CVec T D) :=
  if base = 0 then Except.error () else Except.ok ⟨base, len, some dtor⟩

/-- `CVec::get` (`c_vec.rs:182`). -/
def CVec.get {T D : Type} (m : Mem T) (v : CVec T D) (ofs : Nat) : Option T :=
  if ofs < v.len then some (m (v.base + ofs)) else none

/-- `CVec::get_unchecked` (`c_vec.rs:204`). -/
def CVec.get_unchecked {T D : Type} (m : Mem T) (v : CVec T D) (ofs : Nat) : T :=
  m (v.base + ofs)

/-- `CVec::get_mut` (`c_vec.rs:224`): `Some` of the element's address when
`ofs < len`. -/
def CVec.get_mut {T D : Type} (v : CVec T D) (ofs : Nat) : Option Ptr :=
  if ofs < v.len then some (v.base + ofs) else none

/-- `CVec::get_unchecked_mut` (`c_vec.rs:245`). -/
def CVec.get_unchecked_mut {T D : Type} (v : CVec T D) (ofs : Nat) : Ptr :=
  v.base + ofs

/-- `CVec::into_inner` (`c_vec.rs:270`): set `dtor` to `None`, then return
`base`.  The consumed handle is dropped at the end of the call by Rust;
the second component records the release call performed by that drop. -/
def CVec.into_inner {T D : Type} (v : CVec T D) : Ptr × Option (D × Ptr) :=
  let v' : CVec T D := ⟨v.base, v.len, none⟩
  (v'.base, (CVec.drop v').1)

/-- `CVec::is_empty` (`c_vec.rs:303`). -/
def CVec.is_empty {T D : Type} (v : CVec T D) : Bool :=
  v.len == 0

/-- `CVec::as_cslice` (`c_vec.rs:319`): a read-only view sharing `base`
and `len`. -/
def CVec.as_cslice {T D : Type} (v : CVec T D) : CSlice T :=
  ⟨v.base, v.len⟩

/-- `CVec::as_cslice_mut` (`c_vec.rs:339`): a mutable view sharing `base`
and `len`. -/
def CVec.as_cslice_mut {T D : Type} (v : CVec T D) : CSliceMut T :=
  ⟨v.base, v.len⟩

/-- `impl AsRef<[T]> for CVec` (`c_vec.rs:391`). -/
def CVec.as_ref {T D : Type} (m : Mem T) (v : CVec T D) : List T :=
  (List.range v.len).map (fun i => m (v.base + i))

/-- `impl Index for CVec` (`c_vec.rs:405`): asserts `index < len`. -/
def CVec.index {T D : Type} (m : Mem T) (v : CVec T D) (i : Nat) : Except Unit T :=
  if i < v.len then Except.ok (m (v.base + i)) else Except.error ()

/-- `impl IndexMut for CVec` (`c_vec.rs:414`): asserts `index < len`, then
returns the element's address. -/
def CVec.index_mut {T D : Type} (v : CVec T D) (i : Nat) : Except Unit Ptr :=
  if i < v.len then Except.ok (v.base + i) else Except.error ()

/-- `impl Into<Vec<T>> for CVec` (`c_vec.rs:421`): `self.as_cslice().into()`.
The consumed `self` is dropped by Rust when `into` returns, so the
conversion also performs the handle's release call; the second component
records it. -/
def CVec.into_vec {T D : Type} (m : Mem T) (v : CVec T D) :
    List T × Option (D × Ptr) :=
  (CSlice.into_vec m (CVec.as_cslice v), (CVec.drop v).1)

/-- `CVecIter` (`c_vec.rs:30`): borrowed handle plus position counter. -/
structure CVecIter (T : Type) (D : Type) where
  inner : CVec T D
  pos : Nat
deriving DecidableEq

/-- `impl Iterator for CVecIter::next` (`c_vec.rs:38`). -/
def CVecIter.next {T D : Type} (m : Mem T) (it : CVecIter T D) :
    Option T × CVecIter T D :=
  if it.pos ≥ it.inner.len then (none, it)
  else
    let it' : CVecIter T D := ⟨it.inner, it.pos + 1⟩
    (some (CVec.get_unchecked m it.inner (it'.pos - 1)), it')

/-- `CVec::iter` (`c_vec.rs:361`): a fresh iterator at position `0`. -/
def CVec.iter {T D : Type} (v : CVec T D) : CVecIter T D :=
  ⟨v, 0⟩

/-- Run `CVecIter.next` up to `n` times, collecting the yielded elements
and stopping at the first `None`. -/
def CVecIter.run {T D : Type} (m : Mem T) : Nat → CVecIter T D → List T × CVecIter T D
  | 0, it => ([], it)
  | Nat.succ n, it =>
    match CVecIter.next m it with
    | (none, it') => ([], it')
    | (some x, it') =>
      let r := CVecIter.run m n it'
      (x :: r.1, r.2)

/-- `CVecIterMut` (`c_vec.rs:62`): mutable iterator; yields element
addresses. -/
structure CVecIterMut (T : Type) (D : Type) where
  inner : CVec T D
  pos : Nat
deriving DecidableEq

/-- `impl Iterator for CVecIterMut::next` (`c_vec.rs:70`). -/
def CVecIterMut.next {T D : Type} (it : CVecIterMut T D) :
    Option Ptr × CVecIterMut T D :=
  if it.pos ≥ it.inner.len then (none, it)
  else
    let it' : CVecIterMut T D := ⟨it.inner, it.pos + 1⟩
    (some (it.inner.base + (it'.pos - 1)), it')

/-- `CVec::iter_mut` (`c_vec.rs:383`). -/
def CVec.iter_mut {T D : Type} (v : CVec T D) : CVecIterMut T D :=
  ⟨v, 0⟩

/-- A snapshot (`Vec<T>` produced by the `Into` conversions) together with
the foreign memory: the owned vector lives in separately owned storage, so
mutating it is a pure update of the `snap` component. -/
structure SnapState (T : Type) where
  snap : List T
  mem : Mem T

/-- Mutate the snapshot in place (`v[j] = x` on the owned `Vec`): the
foreign memory component is untouched. -/
def SnapState.set_snap {T : Type} (st : SnapState T) (j : Nat) (x : T) : SnapState T :=
  ⟨st.snap.set j x, st.mem⟩

/-! ## Claims -/

/-- Helper: a bounds-checked read from memory laid out as `arr` at `b`
agrees with list indexing, including the out-of-range case. -/
theorem read_if_eq_getElem? {T : Type} (m : Mem T) (arr : List T) (b i : Nat)
    (hm : ∀ j (hj : j < arr.length), m (b + j) = arr.get ⟨j, hj⟩) :
    (if i < arr.length then some (m (b + i)) else none) = arr[i]? := by
  split
  · rename_i h
    rw [hm i h, List.getElem?_eq_getElem h]
    simp
  · rename_i h
    rw [List.getElem?_eq_none (Nat.le_of_not_lt h)]

/-- C1: for a buffer or view of length `N = arr.length` constructed over a
backing array `arr` laid out at `b`, the checked accessors `CVec.get`,
`CVec.get_mut`, `CSlice.get`, `CSliceMut.get` and `CSliceMut.get_mut`
return exactly the element `arr[i]` for `i < N` and `none` for `i ≥ N`. -/
theorem claim_C1_checked_get_matches_backing {T D : Type} (m : Mem T)
    (arr : List T) (b : Ptr) (v : CVec T D) (s : CSlice T) (u : CSliceMut T)
    (hm : ∀ j (hj : j < arr.length), m (b + j) = arr.get ⟨j, hj⟩)
    (hv : CVec.new (T := T) (D := D) b arr.length = Except.ok v)
    (hs : CSlice.new (T := T) b arr.length = Except.ok s)
    (hu : CSliceMut.new (T := T) b arr.length = Except.ok u)
    (i : Nat) :
    CVec.get m v i = arr[i]? ∧
    (CVec.get_mut v i).map m = arr[i]? ∧
    CSlice.get m s i = arr[i]? ∧
    CSliceMut.get m u i = arr[i]? ∧
    (CSliceMut.get_mut u i).map m = arr[i]? := by
  by_cases hb : b = 0
  · simp [CVec.new, hb] at hv
  · simp only [CVec.new, CSlice.new, CSliceMut.new, hb, if_neg] at hv hs hu
    injection hv with hv
    injection hs with hs
    injection hu with hu
    subst hv hs hu
    refine ⟨?_, ?_, ?_, ?_, ?_⟩ <;>
      simp only [CVec.get, CVec.get_mut, CSlice.get, CSliceMut.get,
        CSliceMut.get_mut] <;>
      first
      | exact read_if_eq_getElem? m arr b i hm
      | (rw [apply_ite (Option.map m)]
         exact read_if_eq_getElem? m arr b i hm)

/-- Witness for C1 at the backing array `[3, 5, 7]` laid out at address 1. -/
theorem claim_C1_witness :
    CVec.get (D := Nat) (fun a => List.getD [3, 5, 7] (a - 1) 0) ⟨1, 3, none⟩ 1
        = [3, 5, 7][1]? ∧
    (CVec.get_mut (T := Nat) (D := Nat) ⟨1, 3, none⟩ 1).map
        (fun a => List.getD [3, 5, 7] (a - 1) 0) = [3, 5, 7][1]? ∧
    CSlice.get (fun a => List.getD [3, 5, 7] (a - 1) 0) ⟨1, 3⟩ 1 = [3, 5, 7][1]? ∧
    CSliceMut.get (fun a => List.getD [3, 5, 7] (a - 1) 0) ⟨1, 3⟩ 1 = [3, 5, 7][1]? ∧
    (CSliceMut.get_mut (T := Nat) ⟨1, 3⟩ 1).map
        (fun a => List.getD [3, 5, 7] (a - 1) 0) = [3, 5, 7][1]? :=
  claim_C1_checked_get_matches_backing (fun a => List.getD [3, 5, 7] (a - 1) 0)
    [3, 5, 7] 1 ⟨1, 3, none⟩ ⟨1, 3⟩ ⟨1, 3⟩ (by decide) rfl rfl rfl 1

/-- C4: every constructor called with the null pointer fails fatally (the
embedded panic outcome), for every element type, callback type and value,
and every length; none of them returns a handle. -/
theorem claim_C4_null_pointer_construction_panics (T D : Type) (len : Nat) (d : D) :
    CVec.new (T := T) (D := D) 0 len = Except.error () ∧
    CVec.new_with_dtor (T := T) 0 len d = Except.error () ∧
    CSlice.new (T := T) 0 len = Except.error () ∧
    CSliceMut.new (T := T) 0 len = Except.error () :=
  ⟨rfl, rfl, rfl, rfl⟩

/-- C5: each index operator agrees with the corresponding checked accessor
(`Except.toOption` of the operator equals the accessor), and it fails
fatally exactly when `index ≥ length`. -/
theorem claim_C5_index_operator_panics_iff_oob (T D : Type) (m : Mem T)
    (v : CVec T D) (s : CSlice T) (u : CSliceMut T) (i : Nat) :
    ((CVec.index m v i).toOption = CVec.get m v i ∧
      (CVec.index m v i = Except.error () ↔ v.len ≤ i)) ∧
    ((CVec.index_mut v i).toOption = CVec.get_mut v i ∧
      (CVec.index_mut v i = Except.error () ↔ v.len ≤ i)) ∧
    ((CSlice.index m s i).toOption = CSlice.get m s i ∧
      (CSlice.index m s i = Except.error () ↔ s.len ≤ i)) ∧
    ((CSliceMut.index m u i).toOption = CSliceMut.get m u i ∧
      (CSliceMut.index m u i = Except.error () ↔ u.len ≤ i)) ∧
    ((CSliceMut.index_mut u i).toOption = CSliceMut.get_mut u i ∧
      (CSliceMut.index_mut u i = Except.error () ↔ u.len ≤ i)) := by
  simp only [CVec.index, CVec.get, CVec.index_mut, CVec.get_mut, CSlice.index,
    CSlice.get, CSliceMut.index, CSliceMut.get, CSliceMut.index_mut,
    CSliceMut.get_mut]
  refine ⟨⟨?_, ?_⟩, ⟨?_, ?_⟩, ⟨?_, ?_⟩, ⟨?_, ?_⟩, ⟨?_, ?_⟩⟩ <;>
    split <;> simp_all [Except.toOption]

/-- C2: dropping a handle built by `new_with_dtor` performs exactly one
release call, with the stored callback and the original base pointer, even
after views were created and dropped (view drops perform no release call);
the callback is cleared by the drop, so dropping again performs no call. -/
theorem claim_C2_release_callback_runs_exactly_once {T D : Type} (b : Ptr)
    (n : Nat) (f : D) (v : CVec T D)
    (hv : CVec.new_with_dtor (T := T) b n f = Except.ok v) :
    CSlice.drop (D := D) (CVec.as_cslice v) = none ∧
    CSliceMut.drop (D := D) (CVec.as_cslice_mut v) = none ∧
    (CVec.drop v).1 = some (f, b) ∧
    ((CVec.drop v).2).dtor = none ∧
    CVec.drop ((CVec.drop v).2) = (none, (CVec.drop v).2) := by
  by_cases hb : b = 0
  · simp [CVec.new_with_dtor, hb] at hv
  · simp only [CVec.new_with_dtor, hb, if_neg] at hv
    injection hv with hv
    subst hv
    refine ⟨rfl, rfl, rfl, rfl, rfl⟩

/-- Witness for C2 with base pointer 2, length 3, callback value 7. -/
theorem claim_C2_witness :
    CSlice.drop (D := Nat) (CVec.as_cslice (⟨2, 3, some 7⟩ : CVec Nat Nat)) = none ∧
    CSliceMut.drop (D := Nat)
        (CVec.as_cslice_mut (⟨2, 3, some 7⟩ : CVec Nat Nat)) = none ∧
    (CVec.drop (⟨2, 3, some 7⟩ : CVec Nat Nat)).1 = some (7, 2) ∧
    ((CVec.drop (⟨2, 3, some 7⟩ : CVec Nat Nat)).2).dtor = none ∧
    CVec.drop ((CVec.drop (⟨2, 3, some 7⟩ : CVec Nat Nat)).2)
        = (none, (CVec.drop (⟨2, 3, some 7⟩ : CVec Nat Nat)).2) :=
  claim_C2_release_callback_runs_exactly_once 2 3 7 ⟨2, 3, some 7⟩ rfl

/-- C3: `into_inner` on a handle built by either constructor returns the
pointer passed at construction, and the release call performed by the
implicit drop of the consumed handle is `none` — the callback stored at
construction never executes. -/
theorem claim_C3_into_inner_returns_base_and_cancels_release {T D : Type}
    (b : Ptr) (n : Nat) (f : D) (v w : CVec T D)
    (hv : CVec.new_with_dtor (T := T) b n f = Except.ok v)
    (hw : CVec.new (T := T) (D := D) b n = Except.ok w) :
    CVec.into_inner v = (b, none) ∧ CVec.into_inner w = (b, none) := by
  by_cases hb : b = 0
  · simp [CVec.new_with_dtor, hb] at hv
  · simp only [CVec.new_with_dtor, CVec.new, hb, if_neg] at hv hw
    injection hv with hv
    injection hw with hw
    subst hv hw
    exact ⟨rfl, rfl⟩

/-- Witness for C3 with base pointer 4, length 2, callback value 9. -/
theorem claim_C3_witness :
    CVec.into_inner (⟨4, 2, some 9⟩ : CVec Nat Nat) = (4, none) ∧
    CVec.into_inner (⟨4, 2, none⟩ : CVec Nat Nat) = (4, none) :=
  claim_C3_into_inner_returns_base_and_cancels_release 4 2 9
    ⟨4, 2, some 9⟩ ⟨4, 2, none⟩ rfl rfl

/-- C9: for every constructed handle or view, `base` equals the constructor
argument and is non-null, `len` equals the constructor argument, and the
operations that yield a handle or view (`as_cslice`, `as_cslice_mut`,
`drop`, `iter`, `next`) preserve `base` and `len`; `len` (the length query)
therefore always returns the constructor's length argument. -/
theorem claim_C9_base_nonnull_len_fixed {T D : Type} (m : Mem T) (b : Ptr)
    (n : Nat) (f : D) (v w : CVec T D) (s : CSlice T) (u : CSliceMut T)
    (hv : CVec.new_with_dtor (T := T) b n f = Except.ok v)
    (hw : CVec.new (T := T) (D := D) b n = Except.ok w)
    (hs : CSlice.new (T := T) b n = Except.ok s)
    (hu : CSliceMut.new (T := T) b n = Except.ok u) :
    (v.base = b ∧ v.len = n ∧ v.base ≠ 0) ∧
    (w.base = b ∧ w.len = n ∧ w.base ≠ 0) ∧
    (s.base = b ∧ s.len = n ∧ s.base ≠ 0) ∧
    (u.base = b ∧ u.len = n ∧ u.base ≠ 0) ∧
    ((CVec.as_cslice v).base = b ∧ (CVec.as_cslice v).len = n) ∧
    ((CVec.as_cslice_mut v).base = b ∧ (CVec.as_cslice_mut v).len = n) ∧
    ((CVec.drop v).2.base = b ∧ (CVec.drop v).2.len = n) ∧
    ((CVec.iter v).inner = v ∧ (CVecIter.next m (CVec.iter v)).2.inner = v) ∧
    CVec.is_empty v = (n == 0) := by
  by_cases hb : b = 0
  · simp [CVec.new_with_dtor, hb] at hv
  · simp only [CVec.new_with_dtor, CVec.new, CSlice.new, CSliceMut.new, hb,
      if_neg] at hv hw hs hu
    injection hv with hv
    injection hw with hw
    injection hs with hs
    injection hu with hu
    subst hv hw hs hu
    refine ⟨⟨rfl, rfl, hb⟩, ⟨rfl, rfl, hb⟩, ⟨rfl, rfl, hb⟩, ⟨rfl, rfl, hb⟩,
      ⟨rfl, rfl⟩, ⟨rfl, rfl⟩, ⟨rfl, rfl⟩, ⟨rfl, ?_⟩, rfl⟩
    simp only [CVecIter.next, CVec.iter]
    split <;> rfl

/-- Witness for C9 with base pointer 5, length 2, callback value 3. -/
theorem claim_C9_witness :
    ((⟨5, 2, some 3⟩ : CVec Nat Nat).base = 5 ∧
      (⟨5, 2, some 3⟩ : CVec Nat Nat).len = 2 ∧
      (⟨5, 2, some 3⟩ : CVec Nat Nat).base ≠ 0) ∧
    ((⟨5, 2, none⟩ : CVec Nat Nat).base = 5 ∧
      (⟨5, 2, none⟩ : CVec Nat Nat).len = 2 ∧
      (⟨5, 2, none⟩ : CVec Nat Nat).base ≠ 0) ∧
    ((⟨5, 2⟩ : CSlice Nat).base = 5 ∧ (⟨5, 2⟩ : CSlice Nat).len = 2 ∧
      (⟨5, 2⟩ : CSlice Nat).base ≠ 0) ∧
    ((⟨5, 2⟩ : CSliceMut Nat).base = 5 ∧ (⟨5, 2⟩ : CSliceMut Nat).len = 2 ∧
      (⟨5, 2⟩ : CSliceMut Nat).base ≠ 0) ∧
    ((CVec.as_cslice (⟨5, 2, some 3⟩ : CVec Nat Nat)).base = 5 ∧
      (CVec.as_cslice (⟨5, 2, some 3⟩ : CVec Nat Nat)).len = 2) ∧
    ((CVec.as_cslice_mut (⟨5, 2, some 3⟩ : CVec Nat Nat)).base = 5 ∧
      (CVec.as_cslice_mut (⟨5, 2, some 3⟩ : CVec Nat Nat)).len = 2) ∧
    ((CVec.drop (⟨5, 2, some 3⟩ : CVec Nat Nat)).2.base = 5 ∧
      (CVec.drop (⟨5, 2, some 3⟩ : CVec Nat Nat)).2.len = 2) ∧
    ((CVec.iter (⟨5, 2, some 3⟩ : CVec Nat Nat)).inner = ⟨5, 2, some 3⟩ ∧
      (CVecIter.next (fun _ => 0)
        (CVec.iter (⟨5, 2, some 3⟩ : CVec Nat Nat))).2.inner = ⟨5, 2, some 3⟩) ∧
    CVec.is_empty (⟨5, 2, some 3⟩ : CVec Nat Nat) = (2 == 0) :=
  claim_C9_base_nonnull_len_fixed (fun _ => 0) 5 2 3 ⟨5, 2, some 3⟩
    ⟨5, 2, none⟩ ⟨5, 2⟩ ⟨5, 2⟩ rfl rfl rfl rfl

/-- C8: for an in-bounds index `i`, writing `x` through the mutable view's
`get_mut` (or `index_mut`) reference — both of which are the address
`base + i` — and then reading index `i` through the view (`get`, `index`)
or through the original buffer (`CVec.get`, `CVec.index`) observes `x`. -/
theorem claim_C8_write_then_read_observes_value {T D : Type} (m : Mem T)
    (v : CVec T D) (i : Nat) (x : T) (hi : i < v.len) :
    CSliceMut.get_mut (CVec.as_cslice_mut v) i = some (v.base + i) ∧
    CSliceMut.index_mut (CVec.as_cslice_mut v) i = Except.ok (v.base + i) ∧
    CSliceMut.get (Mem.write m (v.base + i) x) (CVec.as_cslice_mut v) i = some x ∧
    CSliceMut.index (Mem.write m (v.base + i) x) (CVec.as_cslice_mut v) i
        = Except.ok x ∧
    CVec.get (Mem.write m (v.base + i) x) v i = some x ∧
    CVec.index (Mem.write m (v.base + i) x) v i = Except.ok x := by
  simp [CSliceMut.get_mut, CSliceMut.index_mut, CSliceMut.get, CSliceMut.index,
    CVec.get, CVec.index, CVec.as_cslice_mut, Mem.write, hi]

/-- Witness for C8: buffer `[0, 1, 2]` at address 1, write 10 at index 0. -/
theorem claim_C8_witness :
    0 < (⟨1, 3, none⟩ : CVec Nat Nat).len ∧
    (CSliceMut.get_mut (CVec.as_cslice_mut (⟨1, 3, none⟩ : CVec Nat Nat)) 0
        = some ((⟨1, 3, none⟩ : CVec Nat Nat).base + 0) ∧
      CSliceMut.index_mut (CVec.as_cslice_mut (⟨1, 3, none⟩ : CVec Nat Nat)) 0
        = Except.ok ((⟨1, 3, none⟩ : CVec Nat Nat).base + 0) ∧
      CSliceMut.get
        (Mem.write (fun a => a - 1) ((⟨1, 3, none⟩ : CVec Nat Nat).base + 0) 10)
        (CVec.as_cslice_mut (⟨1, 3, none⟩ : CVec Nat Nat)) 0 = some 10 ∧
      CSliceMut.index
        (Mem.write (fun a => a - 1) ((⟨1, 3, none⟩ : CVec Nat Nat).base + 0) 10)
        (CVec.as_cslice_mut (⟨1, 3, none⟩ : CVec Nat Nat)) 0 = Except.ok 10 ∧
      CVec.get
        (Mem.write (fun a => a - 1) ((⟨1, 3, none⟩ : CVec Nat Nat).base + 0) 10)
        (⟨1, 3, none⟩ : CVec Nat Nat) 0 = some 10 ∧
      CVec.index
        (Mem.write (fun a => a - 1) ((⟨1, 3, none⟩ : CVec Nat Nat).base + 0) 10)
        (⟨1, 3, none⟩ : CVec Nat Nat) 0 = Except.ok 10) :=
  ⟨by decide,
    claim_C8_write_then_read_observes_value (fun a => a - 1) ⟨1, 3, none⟩ 0 10
      (by decide)⟩

/-- Helper: optional indexing into the list of the `n` elements starting
at address `b`. -/
theorem range_map_getElem? {T : Type} (m : Mem T) (b n i : Nat) :
    ((List.range n).map (fun j => m (b + j)))[i]?
      = if i < n then some (m (b + i)) else none := by
  by_cases h : i < n
  · rw [List.getElem?_map, List.getElem?_range h]
    simp [h]
  · rw [List.getElem?_eq_none (by simpa using Nat.le_of_not_lt h)]
    simp [h]

/-- C7: snapshotting a view or buffer of length `N` through the `Into`
conversions yields an owned list of length `N` whose entry at every index
agrees with the view's checked read at that index (so the elements match in
order, and indexing past `N` is absent on both sides); and mutating the
snapshot afterwards leaves the foreign memory — hence every read through
the view — unchanged. -/
theorem claim_C7_snapshot_copies_and_is_independent {T D : Type} (m : Mem T)
    (s : CSlice T) (u : CSliceMut T) (v : CVec T D) (i j : Nat) (x : T) :
    (CSlice.into_vec m s).length = s.len ∧
    (CSlice.into_vec m s)[i]? = CSlice.get m s i ∧
    (CSliceMut.into_vec m u).length = u.len ∧
    (CSliceMut.into_vec m u)[i]? = CSliceMut.get m u i ∧
    (CVec.into_vec m v).1.length = v.len ∧
    (CVec.into_vec m v).1[i]? = CVec.get m v i ∧
    (SnapState.set_snap ⟨CSlice.into_vec m s, m⟩ j x).mem = m ∧
    CSlice.get (SnapState.set_snap ⟨CSlice.into_vec m s, m⟩ j x).mem s i
        = CSlice.get m s i := by
  refine ⟨?_, ?_, ?_, ?_, ?_, ?_, rfl, rfl⟩ <;>
    simp only [CSlice.into_vec, CSliceMut.into_vec, CVec.into_vec,
      CSlice.as_ref, CSliceMut.as_ref, CVec.as_cslice, CSlice.get,
      CSliceMut.get, CVec.get, range_map_getElem?, List.length_map,
      List.length_range]

/-- Helper: once the position has reached the length, `CVecIter.next`
yields nothing and leaves the iterator unchanged. -/
theorem cvecIter_next_done {T D : Type} (m : Mem T) (it : CVecIter T D)
    (h : it.inner.len ≤ it.pos) : CVecIter.next m it = (none, it) := by
  simp [CVecIter.next, h]

/-- Helper: running an exhausted `CVecIter` any number of steps collects
nothing and leaves the iterator unchanged. -/
theorem cvecIter_run_done {T D : Type} (m : Mem T) (k : Nat) (it : CVecIter T D)
    (h : it.inner.len ≤ it.pos) : CVecIter.run m k it = ([], it) := by
  cases k with
  | zero => rfl
  | succ n => rw [CVecIter.run, cvecIter_next_done m it h]

/-- Helper: from position `p` with `p + k ≤ len`, running `k` steps of
`CVecIter.next` collects the elements at indices `p, …, p + k - 1` and
leaves the iterator at position `p + k`. -/
theorem cvecIter_run_spec {T D : Type} (m : Mem T) (v : CVec T D) :
    ∀ (k p : Nat), p + k ≤ v.len →
      CVecIter.run m k ⟨v, p⟩
        = ((List.range' p k).map (fun i => m (v.base + i)),
            (⟨v, p + k⟩ : CVecIter T D)) := by
  intro k
  induction k with
  | zero => intro p _; simp [CVecIter.run]
  | succ n ih =>
    intro p hp
    have hlt : p < v.len := by omega
    have hnext : CVecIter.next m ⟨v, p⟩
        = (some (m (v.base + p)), (⟨v, p + 1⟩ : CVecIter T D)) := by
      simp only [CVecIter.next, CVec.get_unchecked, ge_iff_le,
        Nat.add_sub_cancel]
      rw [if_neg (Nat.not_le.mpr hlt)]
    rw [CVecIter.run, hnext]
    dsimp only
    rw [ih (p + 1) (by omega), List.range'_succ]
    simp only [List.map_cons, Prod.mk.injEq, CVecIter.mk.injEq, true_and]
    omega

/-- Helper: once the position has reached the length, `CSliceIter.next`
yields nothing and leaves the iterator unchanged. -/
theorem csliceIter_next_done {T : Type} (m : Mem T) (it : CSliceIter T)
    (h : it.inner.len ≤ it.pos) : CSliceIter.next m it = (none, it) := by
  simp [CSliceIter.next, h]

/-- Helper: running an exhausted `CSliceIter` any number of steps collects
nothing and leaves the iterator unchanged. -/
theorem csliceIter_run_done {T : Type} (m : Mem T) (k : Nat) (it : CSliceIter T)
    (h : it.inner.len ≤ it.pos) : CSliceIter.run m k it = ([], it) := by
  cases k with
  | zero => rfl
  | succ n => rw [CSliceIter.run, csliceIter_next_done m it h]

/-- Helper: from position `p` with `p + k ≤ len`, running `k` steps of
`CSliceIter.next` collects the elements at indices `p, …, p + k - 1` and
leaves the iterator at position `p + k`. -/
theorem csliceIter_run_spec {T : Type} (m : Mem T) (s : CSlice T) :
    ∀ (k p : Nat), p + k ≤ s.len →
      CSliceIter.run m k ⟨s, p⟩
        = ((List.range' p k).map (fun i => m (s.base + i)),
            (⟨s, p + k⟩ : CSliceIter T)) := by
  intro k
  induction k with
  | zero => intro p _; simp [CSliceIter.run]
  | succ n ih =>
    intro p hp
    have hlt : p < s.len := by omega
    have hnext : CSliceIter.next m ⟨s, p⟩
        = (some (m (s.base + p)), (⟨s, p + 1⟩ : CSliceIter T)) := by
      simp only [CSliceIter.next, CSlice.get_unchecked, ge_iff_le,
        Nat.add_sub_cancel]
      rw [if_neg (Nat.not_le.mpr hlt)]
    rw [CSliceIter.run, hnext]
    dsimp only
    rw [ih (p + 1) (by omega), List.range'_succ]
    simp only [List.map_cons, Prod.mk.injEq, CSliceIter.mk.injEq, true_and]
    omega

/-- C6: `iter` yields a fresh iterator at position 0 over the same data;
running it `len` times yields exactly the `len` elements in index order;
once exhausted, `next` returns `none` and leaves the iterator unchanged
(so every subsequent call also returns `none`, and running any further
number of steps collects nothing); and on a buffer or view of length 0 the
very first `next` already returns `none`.  Stated for both the `CVec`
iterator and the `CSlice` iterator. -/
theorem claim_C6_iteration_yields_len_elements {T D : Type} (m : Mem T)
    (v : CVec T D) (s : CSlice T) (k : Nat) :
    ((CVec.iter v).pos = 0 ∧ (CVec.iter v).inner = v) ∧
    (CVecIter.run m v.len (CVec.iter v)).1
        = (List.range v.len).map (fun i => m (v.base + i)) ∧
    CVecIter.next m (CVecIter.run m v.len (CVec.iter v)).2
        = (none, (CVecIter.run m v.len (CVec.iter v)).2) ∧
    (CVecIter.run m k (CVecIter.run m v.len (CVec.iter v)).2).1 = [] ∧
    CVecIter.next m (CVec.iter (⟨v.base, 0, v.dtor⟩ : CVec T D))
        = (none, CVec.iter (⟨v.base, 0, v.dtor⟩ : CVec T D)) ∧
    ((CSlice.iter s).pos = 0 ∧ (CSlice.iter s).inner = s) ∧
    (CSliceIter.run m s.len (CSlice.iter s)).1
        = (List.range s.len).map (fun i => m (s.base + i)) ∧
    CSliceIter.next m (CSliceIter.run m s.len (CSlice.iter s)).2
        = (none, (CSliceIter.run m s.len (CSlice.iter s)).2) ∧
    (CSliceIter.run m k (CSliceIter.run m s.len (CSlice.iter s)).2).1 = [] ∧
    CSliceIter.next m (CSlice.iter (⟨s.base, 0⟩ : CSlice T))
        = (none, CSlice.iter (⟨s.base, 0⟩ : CSlice T)) := by
  have hv := cvecIter_run_spec m v v.len 0 (by omega)
  have hs := csliceIter_run_spec m s s.len 0 (by omega)
  rw [List.range_eq_range' v.len, List.range_eq_range' s.len]
  refine ⟨⟨rfl, rfl⟩, ?_, ?_, ?_, ?_, ⟨rfl, rfl⟩, ?_, ?_, ?_, ?_⟩
  · rw [show CVec.iter v = (⟨v, 0⟩ : CVecIter T D) from rfl, hv]
  · rw [show CVec.iter v = (⟨v, 0⟩ : CVecIter T D) from rfl, hv]
    exact cvecIter_next_done m _ (by simp)
  · rw [show CVec.iter v = (⟨v, 0⟩ : CVecIter T D) from rfl, hv]
    rw [cvecIter_run_done m k _ (by simp)]
  · exact cvecIter_next_done m _ (by simp [CVec.iter])
  · rw [show CSlice.iter s = (⟨s, 0⟩ : CSliceIter T) from rfl, hs]
  · rw [show CSlice.iter s = (⟨s, 0⟩ : CSliceIter T) from rfl, hs]
    exact csliceIter_next_done m _ (by simp)
  · rw [show CSlice.iter s = (⟨s, 0⟩ : CSliceIter T) from rfl, hs]
    rw [csliceIter_run_done m k _ (by simp)]
  · exact csliceIter_next_done m _ (by simp [CSlice.iter])

/-- C10: the `Into` conversion on an owning handle snapshots via
`as_cslice` and, because Rust drops the consumed handle when the
conversion returns, also performs the release call with the stored
callback and the original base pointer.  Snapshotting from a borrowed view
produces the same list but performs no release call: views carry no
release action and the handle keeps its callback. -/
theorem claim_C10_into_vec_consumes_and_releases {T D : Type} (m : Mem T)
    (b : Ptr) (n : Nat) (f : D) (v : CVec T D)
    (hv : CVec.new_with_dtor (T := T) b n f = Except.ok v) :
    (CVec.into_vec m v).2 = some (f, b) ∧
    (CVec.into_vec m v).1 = CSlice.into_vec m (CVec.as_cslice v) ∧
    CSliceMut.into_vec m (CVec.as_cslice_mut v)
        = CSlice.into_vec m (CVec.as_cslice v) ∧
    CSlice.drop (D := D) (CVec.as_cslice v) = none ∧
    CSliceMut.drop (D := D) (CVec.as_cslice_mut v) = none ∧
    v.dtor = some f := by
  by_cases hb : b = 0
  · simp [CVec.new_with_dtor, hb] at hv
  · simp only [CVec.new_with_dtor, hb, if_neg] at hv
    injection hv with hv
    subst hv
    exact ⟨rfl, rfl, rfl, rfl, rfl, rfl⟩

/-- Witness for C10 with base pointer 3, length 2, callback value 8. -/
theorem claim_C10_witness :
    (CVec.into_vec (fun _ => 0) (⟨3, 2, some 8⟩ : CVec Nat Nat)).2 = some (8, 3) ∧
    (CVec.into_vec (fun _ => 0) (⟨3, 2, some 8⟩ : CVec Nat Nat)).1
        = CSlice.into_vec (fun _ => 0)
            (CVec.as_cslice (⟨3, 2, some 8⟩ : CVec Nat Nat)) ∧
    CSliceMut.into_vec (fun _ => 0)
        (CVec.as_cslice_mut (⟨3, 2, some 8⟩ : CVec Nat Nat))
        = CSlice.into_vec (fun _ => 0)
            (CVec.as_cslice (⟨3, 2, some 8⟩ : CVec Nat Nat)) ∧
    CSlice.drop (D := Nat) (CVec.as_cslice (⟨3, 2, some 8⟩ : CVec Nat Nat)) = none ∧
    CSliceMut.drop (D := Nat)
        (CVec.as_cslice_mut (⟨3, 2, some 8⟩ : CVec Nat Nat)) = none ∧
    (⟨3, 2, some 8⟩ : CVec Nat Nat).dtor = some 8 :=
  claim_C10_into_vec_consumes_and_releases (fun _ => 0) 3 2 8 ⟨3, 2, some 8⟩ rfl
